import Mathlib

/-
Shallow embedding of the SlurmSpawner lifecycle code in
src/slurmspawner/slurmspawner.py, together with proofs about start, poll,
stop, the persisted state and the generated sbatch submission script.

External commands (sbatch, squeue, host, scancel) are modelled by an
environment of textual response streams; a trace records how many times
each class of external command has been invoked.
-/

namespace SlurmSpawner

/-- Embedding of the Python substring test (the expression pat in s). -/
def strHas (s pat : String) : Prop :=
  pat.data <:+: s.data

instance (s pat : String) : Decidable (strHas s pat) := by
  unfold strHas
  infer_instance

theorem strData_append (a b : String) : (a ++ b).data = a.data ++ b.data := rfl

theorem strHas_appendL {a pat : String} (b : String) (h : strHas a pat) :
    strHas (a ++ b) pat := by
  rcases h with ⟨pre, suf, hps⟩
  exact ⟨pre, suf ++ b.data, by rw [strData_append, ← hps]; simp⟩

theorem strHas_appendR {b pat : String} (a : String) (h : strHas b pat) :
    strHas (a ++ b) pat := by
  rcases h with ⟨pre, suf, hps⟩
  exact ⟨a.data ++ pre, suf, by rw [strData_append, ← hps]; simp⟩

theorem strHas_glue2 (a0 x u : String) : strHas (a0 ++ x ++ u) (x ++ u) :=
  ⟨a0.data, [], by simp [strData_append]⟩

theorem strHas_glue3 (a0 x u y : String) :
    strHas (a0 ++ x ++ u ++ y) (x ++ u ++ y) :=
  ⟨a0.data, [], by simp [strData_append]⟩

theorem strHas_trans {s m pat : String} (h1 : strHas m pat) (h2 : strHas s m) :
    strHas s pat :=
  List.IsInfix.trans h1 h2

/-- Internal job state abstraction over the scheduler output string
(spec section 3); derived from the checks in lines 189, 191, 194 and 208
of slurmspawner.py: RUNNING is tested first, then PENDING, anything else
is terminal. -/
inductive JobState
  | PENDING
  | RUNNING
  | TERMINAL
deriving DecidableEq, Repr

/-- The pure state-derivation function: the nested substring checks of the
start poll loop (lines 189-194) and of poll (line 208). -/
def deriveJobState (s : String) : JobState :=
  if strHas s "RUNNING" then JobState.RUNNING
  else if strHas s "PENDING" then JobState.PENDING
  else JobState.TERMINAL

/-- The spawner instance state: slurm_job_id is a Unicode trait (line 59),
modelled as Option String so that the Python value None is `none` and the
empty string is `some ""`; server_ip models self.user.server.ip. -/
structure Spawner where
  slurm_job_id : Option String
  server_ip : String := ""
deriving DecidableEq, Repr

/-- The persisted state blob as far as this spawner extends it: the single
optional key slurm_job_id (`none` means the key is absent). -/
structure StateBlob where
  slurm_job_id : Option String
deriving DecidableEq, Repr

/-- Responses of the external world: sbatch output (already stripped and
decoded, as in lines 142 and 174-175), and streams of responses for the
n-th squeue state query, the n-th scancel, and the n-th host resolution. -/
structure SchedEnv where
  submitOut : String
  stateResp : Nat → String
  cancelResp : Nat → String
  hostResp : Nat → String

/-- Counts of external scheduler invocations actually executed. -/
structure Trace where
  stateQueries : Nat
  cancels : Nat
  hostQueries : Nat
deriving DecidableEq, Repr

/-- load_state (lines 67-70): state.get with default empty string. -/
def load_state (sp : Spawner) (state : StateBlob) : Spawner :=
  { sp with slurm_job_id := some (state.slurm_job_id.getD "") }

/-- get_state (lines 72-77): the key is written only when slurm_job_id is
truthy (non-None and non-empty). -/
def get_state (sp : Spawner) : StateBlob :=
  { slurm_job_id :=
      match sp.slurm_job_id with
      | some id => if id = "" then none else some id
      | none => none }

/-- clear_state (lines 79-82): resets slurm_job_id to the empty string. -/
def clear_state (sp : Spawner) : Spawner :=
  { sp with slurm_job_id := some "" }

/-- _check_slurm_job_state (lines 94-104): when the job id is None or empty
the squeue command is not executed and the empty string is returned;
otherwise one squeue -h -j id -o %T invocation happens. -/
def check_slurm_job_state (env : SchedEnv) (sp : Spawner) (tr : Trace) :
    String × Trace :=
  if sp.slurm_job_id = none ∨ sp.slurm_job_id = some "" then ("", tr)
  else (env.stateResp tr.stateQueries,
        { tr with stateQueries := tr.stateQueries + 1 })

/-- Split of a character list at every character satisfying p, keeping
empty fields, as Python str.split does with an explicit separator. -/
def splitAux (p : Char → Bool) : List Char → List Char → List (List Char)
  | [], acc => [acc.reverse]
  | c :: cs, acc =>
      if p c then acc.reverse :: splitAux p cs []
      else splitAux p cs (c :: acc)

/-- Python str.split with a single-character separator. -/
def pySplit1 (sep : Char) (s : String) : List String :=
  (splitAux (fun c => c = sep) s.data []).map String.mk

/-- Line 177: output.split(' ')[-1], the last token of the split at single
spaces. -/
def lastSpaceToken (s : String) : String :=
  (pySplit1 ' ' s).getLastD ""

/-- Success of the Python call int(s) on a token (lines 180-183): an
optional sign followed by at least one digit.  The tokens come from a
split at spaces of a stripped string, so surrounding whitespace is not
modelled. -/
def pyIntOk (s : String) : Bool :=
  let t : List Char :=
    match s.data with
    | c :: rest => if c = '-' ∨ c = '+' then rest else c :: rest
    | [] => []
  !t.isEmpty && t.all Char.isDigit

/-- The for i in range(15) poll loop of start (lines 187-196), with the
fuel argument standing for the remaining loop iterations.  RUNNING breaks
out (first component none), PENDING re-queries and continues, anything
else returns 1 (first component some 1).  When the fuel runs out the loop
simply ends and start falls through to host resolution, hence none. -/
def startLoop (env : SchedEnv) (sp : Spawner) :
    Nat → String → Trace → Option Nat × Trace
  | 0, _, tr => (none, tr)
  | n + 1, js, tr =>
      if strHas js "RUNNING" then (none, tr)
      else if strHas js "PENDING" then
        let p := check_slurm_job_state env sp tr
        startLoop env sp n p.1 p.2
      else (some 1, tr)

/-- get_slurm_job_info (lines 145-156): one host-resolution round
(squeue -o %N plus host) returning the node address. -/
def get_slurm_job_info (env : SchedEnv) (tr : Trace) : String × Trace :=
  (env.hostResp tr.hostQueries,
   { tr with hostQueries := tr.hostQueries + 1 })

/-- Outcome of start: result none models the implicit None return of the
success path, result some 1 models the return 1 on line 196. -/
structure StartResult where
  result : Option Nat
  spawner : Spawner
  trace : Trace
deriving DecidableEq, Repr

/-- start (lines 158-201): store the last space-delimited token of the
sbatch output as slurm_job_id (line 177; the int check on lines 180-183
only logs), query the state once, run the bounded poll loop, and on
falling out of the loop resolve the execution host and record it. -/
def start (env : SchedEnv) (sp0 : Spawner) (tr0 : Trace) : StartResult :=
  let jid := lastSpaceToken env.submitOut
  let sp1 : Spawner := { sp0 with slurm_job_id := some jid }
  let r0 := check_slurm_job_state env sp1 tr0
  let r1 := startLoop env sp1 15 r0.1 r0.2
  match r1.1 with
  | some r => { result := some r, spawner := sp1, trace := r1.2 }
  | none =>
      let hi := get_slurm_job_info env r1.2
      { result := none,
        spawner := { sp1 with server_ip := hi.1 },
        trace := hi.2 }

/-- poll (lines 203-217): with a non-None job id, one state check decides
alive (None, modelled none) versus not running (clear_state and return 1);
with job id None the second branch clears state and returns 1. -/
def poll (env : SchedEnv) (sp : Spawner) (tr : Trace) :
    Option Nat × Spawner × Trace :=
  match sp.slurm_job_id with
  | some _ =>
      let p := check_slurm_job_state env sp tr
      if strHas p.1 "RUNNING" ∨ strHas p.1 "PENDING" then (none, sp, p.2)
      else (some 1, clear_state sp, p.2)
  | none => (some 1, clear_state sp, tr)

/-- Outcome of stop; warned records whether the final warning
(line 247, job never cancelled) was logged. -/
structure StopResult where
  spawner : Spawner
  trace : Trace
  warned : Bool
deriving DecidableEq, Repr

/-- stop (lines 226-247): poll first and return when the job is not
running; otherwise scancel once, accept a terminal-label answer, otherwise
poll once more and log a warning when the job still reports alive.  The
now flag is accepted (line 227) but never read. -/
def stop (env : SchedEnv) (sp : Spawner) (tr : Trace) (now : Bool) :
    StopResult :=
  match poll env sp tr with
  | (some _, sp1, tr1) => { spawner := sp1, trace := tr1, warned := false }
  | (none, sp1, tr1) =>
      let out := env.cancelResp tr1.cancels
      let tr2 := { tr1 with cancels := tr1.cancels + 1 }
      if out = "CANCELLED" ∨ out = "COMPLETED" ∨ out = "FAILED" ∨
         out = "COMPLETING" then
        { spawner := sp1, trace := tr2, warned := false }
      else
        match poll env sp1 tr2 with
        | (some _, sp2, tr3) => { spawner := sp2, trace := tr3, warned := false }
        | (none, sp2, tr3) => { spawner := sp2, trace := tr3, warned := true }

/-- The sbatch script template of _run_jupyterhub_singleuser
(lines 117-130), with the Template placeholders as arguments. -/
def sbatchTemplate (queue hours user export_cmd cmd mem : String) : String :=
  "#!/bin/bash\n" ++
  "#SBATCH --partition=" ++ queue ++ "\n" ++
  "#SBATCH --time=" ++ hours ++ ":00:00\n" ++
  "#SBATCH -o /home/" ++ user ++ "/jupyterhub_slurmspawner_%j.log" ++ "\n" ++
  "#SBATCH --job-name=spawner-jupyterhub\n" ++
  "#SBATCH --workdir=/home/" ++ user ++ "\n" ++
  "#SBATCH --mem=" ++ mem ++ "\n" ++
  "#SBATCH --uid=" ++ user ++ "\n" ++
  "#SBATCH --get-user-env=L\n" ++
  "\nwhich jupyterhub-singleuser\n" ++
  export_cmd ++ "\n" ++
  cmd ++ "\n" ++
  "        "

/-- The script rendered by _run_jupyterhub_singleuser (lines 113-138):
defaults queue all, mem 200, hours 2; the command is split at semicolons
into the export part (index 0) and the command part (index 1), and with no
semicolon present the Python indexing raises, modelled as none. -/
def run_jupyterhub_singleuser_script (cmd user : String) : Option String :=
  match pySplit1 ';' cmd with
  | e :: c :: _ => some (sbatchTemplate "all" "2" user e c "200")
  | _ => none

/-- Modelled from the spec: the final whitespace-delimited token of the
submit output, as the words of the claim about job-identifier parsing read
(comparison definition; the source uses a split at single spaces). -/
def lastWhitespaceToken (s : String) : String :=
  (((splitAux (fun c => c.isWhitespace) s.data []).filter
      (fun l => !l.isEmpty)).map String.mk).getLastD ""

/-- A scheduler that reports PENDING on every state query. -/
def envPend : SchedEnv :=
  ⟨"Submitted batch job 42", fun _ => "PENDING", fun _ => "", fun _ => "10.1.1.1"⟩

/-- A scheduler that reports FAILED on every state query. -/
def envFail : SchedEnv :=
  ⟨"Submitted batch job 42", fun _ => "FAILED", fun _ => "", fun _ => "10.1.1.1"⟩

/-- A scheduler that reports PENDING on the first two state queries and
FAILED afterwards: the terminal state is observed mid-loop. -/
def envFailMid : SchedEnv :=
  ⟨"Submitted batch job 42", fun i => if i < 2 then "PENDING" else "FAILED",
   fun _ => "", fun _ => "10.1.1.1"⟩

/-- A scheduler whose submit output ends in a token containing a tab, and
that reports RUNNING on every state query. -/
def envTab : SchedEnv :=
  ⟨"Submitted batch job\t209", fun _ => "RUNNING", fun _ => "",
   fun _ => "node1.cluster has address 10.0.0.5"⟩

/-- A scheduler that reports PENDING on the first three state queries and
RUNNING afterwards. -/
def envW4 : SchedEnv :=
  ⟨"Submitted batch job 77", fun i => if i < 3 then "PENDING" else "RUNNING",
   fun _ => "", fun _ => "10.0.0.9"⟩

/-- A fresh spawner: the slurm_job_id Unicode trait defaults to the empty
string. -/
def spFresh : Spawner := ⟨some "", ""⟩

/-- A spawner holding the job identifier 42. -/
def spJob : Spawner := ⟨some "42", "10.1.1.1"⟩

/-- The zero invocation trace. -/
def tr0 : Trace := ⟨0, 0, 0⟩

/-! Helper lemmas about the embedded operations. -/

theorem check_present {sp : Spawner} {j : String} (env : SchedEnv) (tr : Trace)
    (hid : sp.slurm_job_id = some j) (hj : j ≠ "") :
    check_slurm_job_state env sp tr =
      (env.stateResp tr.stateQueries,
       { tr with stateQueries := tr.stateQueries + 1 }) := by
  simp [check_slurm_job_state, hid, hj]

theorem check_absent {sp : Spawner} (env : SchedEnv) (tr : Trace)
    (hid : sp.slurm_job_id = none ∨ sp.slurm_job_id = some "") :
    check_slurm_job_state env sp tr = ("", tr) := by
  simp [check_slurm_job_state, hid]

theorem startLoop_running {js : String} (env : SchedEnv) (sp : Spawner)
    (n : Nat) (tr : Trace) (h : strHas js "RUNNING") :
    startLoop env sp (n + 1) js tr = (none, tr) := by
  simp [startLoop, h]

theorem startLoop_terminal {js : String} (env : SchedEnv) (sp : Spawner)
    (n : Nat) (tr : Trace) (h1 : ¬ strHas js "RUNNING")
    (h2 : ¬ strHas js "PENDING") :
    startLoop env sp (n + 1) js tr = (some 1, tr) := by
  simp [startLoop, h1, h2]

theorem startLoop_pending_step {js : String} (env : SchedEnv) {sp : Spawner}
    {j : String} (n : Nat) (tr : Trace) (hid : sp.slurm_job_id = some j)
    (hj : j ≠ "") (h1 : ¬ strHas js "RUNNING") (h2 : strHas js "PENDING") :
    startLoop env sp (n + 1) js tr =
      startLoop env sp n (env.stateResp tr.stateQueries)
        { tr with stateQueries := tr.stateQueries + 1 } := by
  simp [startLoop, h1, h2, check_present env tr hid hj]

/-- poll with an absent job id returns the not-running result 1, clears
the state and leaves the trace unchanged. -/
theorem poll_absent (env : SchedEnv) (sp : Spawner) (tr : Trace)
    (hid : sp.slurm_job_id = none ∨ sp.slurm_job_id = some "") :
    poll env sp tr = (some 1, clear_state sp, tr) := by
  rcases hid with h | h
  · simp [poll, h]
  · simp [poll, h, check_absent env tr (Or.inr h), strHas]

/-- Claim C3.  poll with an absent job id (None or the empty string)
returns the not-running result 1, clears the state, and executes no
external command at all: the trace is unchanged. -/
theorem poll_absent_id_no_query (env : SchedEnv) (sp : Spawner) (tr : Trace)
    (hid : sp.slurm_job_id = none ∨ sp.slurm_job_id = some "") :
    poll env sp tr = (some 1, clear_state sp, tr) :=
  poll_absent env sp tr hid

/-- Witness for C3 at both absent forms of the identifier. -/
theorem poll_absent_id_no_query_witness :
    poll ⟨"", fun _ => "RUNNING", fun _ => "", fun _ => ""⟩
        ⟨none, ""⟩ ⟨0, 0, 0⟩ = (some 1, clear_state ⟨none, ""⟩, ⟨0, 0, 0⟩) ∧
    poll ⟨"", fun _ => "RUNNING", fun _ => "", fun _ => ""⟩
        ⟨some "", ""⟩ ⟨0, 0, 0⟩ =
      (some 1, clear_state ⟨some "", ""⟩, ⟨0, 0, 0⟩) :=
  ⟨poll_absent_id_no_query _ _ _ (Or.inl rfl),
   poll_absent_id_no_query _ _ _ (Or.inr rfl)⟩

/-- Claim C5.  The state derivation is the pure function deriveJobState of
the scheduler output string: the listed literal outputs map as specified,
every string containing neither RUNNING nor PENDING as a substring (in
particular every such non-empty string) is terminal, and a string that
contains both RUNNING and PENDING resolves to RUNNING because RUNNING is
checked first. -/
theorem deriveJobState_spec :
    deriveJobState "PENDING" = JobState.PENDING ∧
    deriveJobState "RUNNING" = JobState.RUNNING ∧
    deriveJobState "" = JobState.TERMINAL ∧
    deriveJobState "CANCELLED" = JobState.TERMINAL ∧
    deriveJobState "COMPLETED" = JobState.TERMINAL ∧
    deriveJobState "FAILED" = JobState.TERMINAL ∧
    deriveJobState "COMPLETING" = JobState.TERMINAL ∧
    (∀ s : String, s ≠ "" → ¬ strHas s "RUNNING" → ¬ strHas s "PENDING" →
      deriveJobState s = JobState.TERMINAL) ∧
    (∀ s : String, strHas s "RUNNING" → strHas s "PENDING" →
      deriveJobState s = JobState.RUNNING) := by
  refine ⟨by decide, by decide, by decide, by decide, by decide, by decide,
    by decide, ?_, ?_⟩
  · intro s _ h1 h2
    simp [deriveJobState, h1, h2]
  · intro s h1 _
    simp [deriveJobState, h1]

/-- Witness for C5 on concrete strings with hypotheses discharged. -/
theorem deriveJobState_spec_witness :
    deriveJobState "NODE_FAIL" = JobState.TERMINAL ∧
    deriveJobState "RUNNING PENDING" = JobState.RUNNING :=
  ⟨deriveJobState_spec.2.2.2.2.2.2.2.1 "NODE_FAIL" (by decide) (by decide)
      (by decide),
   deriveJobState_spec.2.2.2.2.2.2.2.2 "RUNNING PENDING" (by decide)
      (by decide)⟩

/-- Claim C6.  State persistence round-trips: for a non-empty identifier,
get_state stores it under the slurm_job_id key, load_state on a fresh
instance restores it exactly, and after clear_state the produced blob has
no identifier key. -/
theorem state_roundtrip (id : String) (sp fresh : Spawner) (hid : id ≠ "") :
    get_state { sp with slurm_job_id := some id } = ⟨some id⟩ ∧
    (load_state fresh
        (get_state { sp with slurm_job_id := some id })).slurm_job_id =
      some id ∧
    (get_state (clear_state sp)).slurm_job_id = none := by
  refine ⟨?_, ?_, ?_⟩
  · simp [get_state, hid]
  · simp [get_state, load_state, hid]
  · simp [get_state, clear_state]

/-- Witness for C6 at a concrete identifier. -/
theorem state_roundtrip_witness :
    get_state { (⟨some "old", "ip"⟩ : Spawner) with slurm_job_id := some "42" }
        = ⟨some "42"⟩ ∧
    (load_state ⟨some "", ""⟩
        (get_state { (⟨some "old", "ip"⟩ : Spawner) with
          slurm_job_id := some "42" })).slurm_job_id = some "42" ∧
    (get_state (clear_state ⟨some "old", "ip"⟩)).slurm_job_id = none :=
  state_roundtrip "42" ⟨some "old", "ip"⟩ ⟨some "", ""⟩ (by decide)

/-- Claim C10.  The now argument of stop is never read: for every
environment, spawner state and trace, stop with now true and with now
false are the same function value, so invocations, state changes and
result coincide. -/
theorem stop_now_irrelevant (env : SchedEnv) (sp : Spawner) (tr : Trace)
    (a b : Bool) : stop env sp tr a = stop env sp tr b := rfl

/-- When every examined response is PENDING the loop consumes all its fuel,
performs one query per iteration and falls out with the success marker. -/
theorem startLoop_pending_all (env : SchedEnv) (sp : Spawner) (j : String)
    (hid : sp.slurm_job_id = some j) (hj : j ≠ "") :
    ∀ (n : Nat) (js : String) (tr : Trace), strHas js "PENDING" →
      ¬ strHas js "RUNNING" →
      (∀ i, i + 1 < n → env.stateResp (tr.stateQueries + i) = "PENDING") →
      startLoop env sp n js tr =
        (none, { tr with stateQueries := tr.stateQueries + n }) := by
  intro n
  induction n with
  | zero => intro js tr _ _ _; simp [startLoop]
  | succ m ih =>
      intro js tr hP hR hall
      rw [startLoop_pending_step env m tr hid hj hR hP]
      match m, ih with
      | 0, _ => simp [startLoop]
      | k + 1, ih =>
          have h0 : env.stateResp (tr.stateQueries + 0) = "PENDING" :=
            hall 0 (by omega)
          rw [Nat.add_zero] at h0
          have hres := ih (env.stateResp tr.stateQueries)
            { tr with stateQueries := tr.stateQueries + 1 }
            (by rw [h0]; decide) (by rw [h0]; decide)
            (by
              intro i hi
              have h3 : tr.stateQueries + 1 + i = tr.stateQueries + (i + 1) := by
                omega
              rw [h3]
              exact hall (i + 1) (by omega))
          rw [hres]
          have h4 : tr.stateQueries + 1 + (k + 1) = tr.stateQueries + (k + 1 + 1) := by
            omega
          simp [h4]

/-- The loop never decreases the query counter and never touches the other
counters. -/
theorem startLoop_trace_mono (env : SchedEnv) (sp : Spawner) :
    ∀ (n : Nat) (js : String) (tr : Trace),
      tr.stateQueries ≤ (startLoop env sp n js tr).2.stateQueries ∧
      (startLoop env sp n js tr).2.cancels = tr.cancels ∧
      (startLoop env sp n js tr).2.hostQueries = tr.hostQueries := by
  intro n
  induction n with
  | zero => intro js tr; simp [startLoop]
  | succ m ih =>
      intro js tr
      by_cases hR : strHas js "RUNNING"
      · simp [startLoop, hR]
      · by_cases hP : strHas js "PENDING"
        · have hrec := ih (check_slurm_job_state env sp tr).1
            (check_slurm_job_state env sp tr).2
          have hch : tr.stateQueries ≤ (check_slurm_job_state env sp tr).2.stateQueries ∧
              (check_slurm_job_state env sp tr).2.cancels = tr.cancels ∧
              (check_slurm_job_state env sp tr).2.hostQueries = tr.hostQueries := by
            unfold check_slurm_job_state
            split <;> simp
          refine ⟨?_, ?_, ?_⟩ <;>
            simp only [startLoop, hR, hP, if_true, if_false, ite_true,
              ite_false] <;>
            omega
        · simp [startLoop, hR, hP]

/-- Evaluation of start when the poll loop falls out on the success side:
host resolution runs once on the loop trace. -/
theorem start_eq_of_loop_none {env : SchedEnv} {sp : Spawner} {tr tr2 : Trace}
    (hjid : lastSpaceToken env.submitOut ≠ "")
    (hloop : startLoop env
        { sp with slurm_job_id := some (lastSpaceToken env.submitOut) } 15
        (env.stateResp tr.stateQueries)
        { tr with stateQueries := tr.stateQueries + 1 } = (none, tr2)) :
    start env sp tr =
      { result := none,
        spawner := ⟨some (lastSpaceToken env.submitOut),
                    env.hostResp tr2.hostQueries⟩,
        trace := { tr2 with hostQueries := tr2.hostQueries + 1 } } := by
  simp only [start]
  rw [check_present env tr rfl hjid]
  simp only [hloop, get_slurm_job_info]

/-- Evaluation of start when the poll loop returns the failure marker:
start returns it directly, with no host resolution and with the parsed
token still stored. -/
theorem start_eq_of_loop_fail {env : SchedEnv} {sp : Spawner} {tr tr2 : Trace}
    {r : Nat} (hjid : lastSpaceToken env.submitOut ≠ "")
    (hloop : startLoop env
        { sp with slurm_job_id := some (lastSpaceToken env.submitOut) } 15
        (env.stateResp tr.stateQueries)
        { tr with stateQueries := tr.stateQueries + 1 } = (some r, tr2)) :
    start env sp tr =
      { result := some r,
        spawner := { sp with slurm_job_id := some (lastSpaceToken env.submitOut) },
        trace := tr2 } := by
  simp only [start]
  rw [check_present env tr rfl hjid]
  simp only [hloop]

/-- Counterexample to claim C1 as stated: with a scheduler that answers
PENDING on every state query, start does not report failure (the result is
the success-path none, not the failure return 1), it does proceed to host
resolution (one host query), and the stored job identifier is the parsed
token 42, not the empty string. -/
theorem start_pending15_counterexample :
    (start envPend spFresh tr0).result = none ∧
    (start envPend spFresh tr0).trace.hostQueries = 1 ∧
    (start envPend spFresh tr0).trace.stateQueries = 16 ∧
    (start envPend spFresh tr0).spawner.slurm_job_id = some "42" ∧
    some ("42" : String) ≠ some ("" : String) := by
  refine ⟨?_, ?_, ?_, ?_, by decide⟩ <;> decide

/-- Claim C1 as amended.  When the scheduler answers PENDING on the 15
consecutive state queries the loop examines, start does not hang: it
performs exactly 16 state queries (one before the loop and one per
iteration), falls out of the loop, proceeds to exactly one host
resolution, returns the success path, and the stored JobIdentifier keeps
the parsed token (it is not cleared). -/
theorem start_pending15_behavior (env : SchedEnv) (sp : Spawner) (tr : Trace)
    (hjid : lastSpaceToken env.submitOut ≠ "")
    (hall : ∀ i, i < 15 → env.stateResp (tr.stateQueries + i) = "PENDING") :
    (start env sp tr).result = none ∧
    (start env sp tr).trace.stateQueries = tr.stateQueries + 16 ∧
    (start env sp tr).trace.hostQueries = tr.hostQueries + 1 ∧
    (start env sp tr).spawner.slurm_job_id =
      some (lastSpaceToken env.submitOut) := by
  have h0 : env.stateResp tr.stateQueries = "PENDING" := by
    have := hall 0 (by omega)
    rwa [Nat.add_zero] at this
  have hloop : startLoop env
      { sp with slurm_job_id := some (lastSpaceToken env.submitOut) } 15
      (env.stateResp tr.stateQueries)
      { tr with stateQueries := tr.stateQueries + 1 } =
      (none, { tr with stateQueries := tr.stateQueries + 16 }) := by
    have := startLoop_pending_all env
      { sp with slurm_job_id := some (lastSpaceToken env.submitOut) }
      (lastSpaceToken env.submitOut)
      rfl hjid 15 (env.stateResp tr.stateQueries)
      { tr with stateQueries := tr.stateQueries + 1 }
      (by rw [h0]; decide) (by rw [h0]; decide)
      (by
        intro i hi
        have h3 : tr.stateQueries + 1 + i = tr.stateQueries + (i + 1) := by
          omega
        rw [h3]
        exact hall (i + 1) (by omega))
    rw [this]
  rw [start_eq_of_loop_none hjid hloop]
  simp

/-- Witness for C1 (amended) on the all-PENDING scheduler. -/
theorem start_pending15_behavior_witness :
    (start envPend spFresh tr0).result = none ∧
    (start envPend spFresh tr0).trace.stateQueries = tr0.stateQueries + 16 ∧
    (start envPend spFresh tr0).trace.hostQueries = tr0.hostQueries + 1 ∧
    (start envPend spFresh tr0).spawner.slurm_job_id =
      some (lastSpaceToken envPend.submitOut) :=
  start_pending15_behavior envPend spFresh tr0 (by decide) (fun _ _ => rfl)

/-- Counterexample to claim C2 as stated: with a scheduler answering
FAILED, start does return the failure marker 1, but the stored
JobIdentifier is the parsed token 42, not the cleared empty string. -/
theorem start_failed_state_counterexample :
    (start envFail spFresh tr0).result = some 1 ∧
    (start envFail spFresh tr0).spawner.slurm_job_id = some "42" ∧
    some ("42" : String) ≠ some ("" : String) := by
  refine ⟨?_, ?_, by decide⟩ <;> decide

/-- When the loop examines PENDING states for the first k iterations and
a state containing neither RUNNING nor PENDING at iteration k, it returns
the failure marker 1 right there, after the k in-loop queries.  The first
examined state is the js argument; examined state m for m of at least one
is the response to the (m-1)-th query counted from the entry trace. -/
theorem startLoop_terminal_after (env : SchedEnv) (sp : Spawner) (j : String)
    (hid : sp.slurm_job_id = some j) (hj : j ≠ "") :
    ∀ (k n : Nat) (js : String) (tr : Trace), k < n →
      ((¬ strHas js "RUNNING" ∧ ¬ strHas js "PENDING" ∧ k = 0) ∨
       (js = "PENDING" ∧ 0 < k ∧
        (∀ i, i + 1 < k → env.stateResp (tr.stateQueries + i) = "PENDING") ∧
        ¬ strHas (env.stateResp (tr.stateQueries + (k - 1))) "RUNNING" ∧
        ¬ strHas (env.stateResp (tr.stateQueries + (k - 1))) "PENDING")) →
      startLoop env sp n js tr =
        (some 1, { tr with stateQueries := tr.stateQueries + k }) := by
  intro k
  induction k with
  | zero =>
      intro n js tr hn hdisj
      rcases hdisj with ⟨hR, hP, _⟩ | ⟨_, h0, _⟩
      · match n, hn with
        | m + 1, _ =>
            rw [startLoop_terminal env sp m tr hR hP]
            simp
      · exact absurd h0 (by omega)
  | succ k ih =>
      intro n js tr hn hdisj
      rcases hdisj with ⟨_, _, hk0⟩ | ⟨hjs, _, hpend, hR, hP⟩
      · exact absurd hk0 (by omega)
      · subst hjs
        simp only [Nat.add_sub_cancel] at hR hP
        match n, hn with
        | m + 1, hn =>
            rw [startLoop_pending_step env m tr hid hj (by decide) (by decide)]
            rcases Nat.eq_zero_or_pos k with hk | hk
            · subst hk
              rw [Nat.add_zero] at hR hP
              have hres := ih m (env.stateResp tr.stateQueries)
                { tr with stateQueries := tr.stateQueries + 1 }
                (by omega) (Or.inl ⟨hR, hP, rfl⟩)
              rw [hres]
            · have hres := ih m (env.stateResp tr.stateQueries)
                { tr with stateQueries := tr.stateQueries + 1 }
                (by omega)
                (Or.inr ⟨hpend 0 (by omega), hk,
                  by
                    intro i hi
                    have h3 : tr.stateQueries + 1 + i =
                        tr.stateQueries + (i + 1) := by omega
                    rw [h3]
                    exact hpend (i + 1) (by omega),
                  by
                    have h4 : tr.stateQueries + 1 + (k - 1) =
                        tr.stateQueries + k := by omega
                    rw [h4]
                    exact hR,
                  by
                    have h4 : tr.stateQueries + 1 + (k - 1) =
                        tr.stateQueries + k := by omega
                    rw [h4]
                    exact hP⟩)
              rw [hres]
              have h5 : tr.stateQueries + 1 + k = tr.stateQueries + (k + 1) := by
                omega
              simp [h5]

/-- Claim C2 as amended.  Whenever the queried job state examined by the
start poll loop contains neither RUNNING nor PENDING (any other state,
including empty) - at whatever iteration k it is first observed, after k
PENDING observations - start treats it as failure: it returns the failure
result 1 to the caller without raising (the embedding is a total
function), performs no host resolution and no further query, but leaves
the stored JobIdentifier set to the parsed token instead of clearing
it. -/
theorem start_nonpending_failure (env : SchedEnv) (sp : Spawner) (tr : Trace)
    (k : Nat) (hk : k < 15)
    (hjid : lastSpaceToken env.submitOut ≠ "")
    (hpend : ∀ i, i < k → env.stateResp (tr.stateQueries + i) = "PENDING")
    (hR : ¬ strHas (env.stateResp (tr.stateQueries + k)) "RUNNING")
    (hP : ¬ strHas (env.stateResp (tr.stateQueries + k)) "PENDING") :
    (start env sp tr).result = some 1 ∧
    (start env sp tr).spawner.slurm_job_id =
      some (lastSpaceToken env.submitOut) ∧
    (start env sp tr).trace =
      { tr with stateQueries := tr.stateQueries + (k + 1) } := by
  have hloop : startLoop env
      { sp with slurm_job_id := some (lastSpaceToken env.submitOut) } 15
      (env.stateResp tr.stateQueries)
      { tr with stateQueries := tr.stateQueries + 1 } =
      (some 1, { tr with stateQueries := tr.stateQueries + (k + 1) }) := by
    rcases Nat.eq_zero_or_pos k with hk0 | hk0
    · subst hk0
      rw [Nat.add_zero] at hR hP
      have hres := startLoop_terminal_after env
        { sp with slurm_job_id := some (lastSpaceToken env.submitOut) }
        (lastSpaceToken env.submitOut) rfl hjid 0 15
        (env.stateResp tr.stateQueries)
        { tr with stateQueries := tr.stateQueries + 1 }
        (by omega) (Or.inl ⟨hR, hP, rfl⟩)
      rw [hres]
    · have hres := startLoop_terminal_after env
        { sp with slurm_job_id := some (lastSpaceToken env.submitOut) }
        (lastSpaceToken env.submitOut) rfl hjid k 15
        (env.stateResp tr.stateQueries)
        { tr with stateQueries := tr.stateQueries + 1 }
        (by omega)
        (Or.inr ⟨hpend 0 (by omega), hk0,
          by
            intro i hi
            have h3 : tr.stateQueries + 1 + i = tr.stateQueries + (i + 1) := by
              omega
            rw [h3]
            exact hpend (i + 1) (by omega),
          by
            have h4 : tr.stateQueries + 1 + (k - 1) = tr.stateQueries + k := by
              omega
            rw [h4]
            exact hR,
          by
            have h4 : tr.stateQueries + 1 + (k - 1) = tr.stateQueries + k := by
              omega
            rw [h4]
            exact hP⟩)
      rw [hres]
      have h5 : tr.stateQueries + 1 + k = tr.stateQueries + (k + 1) := by omega
      simp [h5]
  rw [start_eq_of_loop_fail hjid hloop]
  simp

/-- Witness for C2 (amended) on a scheduler that reports PENDING twice and
then FAILED: the terminal state is observed at loop iteration 2, start
returns 1 after exactly three state queries, no host resolution, and the
token 42 stays stored. -/
theorem start_nonpending_failure_witness :
    (start envFailMid spFresh tr0).result = some 1 ∧
    (start envFailMid spFresh tr0).spawner.slurm_job_id =
      some (lastSpaceToken envFailMid.submitOut) ∧
    (start envFailMid spFresh tr0).trace =
      { tr0 with stateQueries := tr0.stateQueries + (2 + 1) } :=
  start_nonpending_failure envFailMid spFresh tr0 2 (by decide) (by decide)
    (by
      intro i hi
      interval_cases i <;> rfl)
    (by decide) (by decide)

/-- Claim C4.  With PENDING on the first three state queries and RUNNING
on the fourth, start succeeds (success-path result none) after exactly
four state queries and exactly one host resolution. -/
theorem start_pending3_running_succeeds (env : SchedEnv) (sp : Spawner)
    (tr : Trace) (hjid : lastSpaceToken env.submitOut ≠ "")
    (h0 : env.stateResp tr.stateQueries = "PENDING")
    (h1 : env.stateResp (tr.stateQueries + 1) = "PENDING")
    (h2 : env.stateResp (tr.stateQueries + 2) = "PENDING")
    (h3 : env.stateResp (tr.stateQueries + 3) = "RUNNING") :
    (start env sp tr).result = none ∧
    (start env sp tr).trace.stateQueries = tr.stateQueries + 4 ∧
    (start env sp tr).trace.hostQueries = tr.hostQueries + 1 ∧
    (start env sp tr).trace.cancels = tr.cancels := by
  have hloop : startLoop env
      { sp with slurm_job_id := some (lastSpaceToken env.submitOut) } 15
      (env.stateResp tr.stateQueries)
      { tr with stateQueries := tr.stateQueries + 1 } =
      (none, { tr with stateQueries := tr.stateQueries + 4 }) := by
    rw [startLoop_pending_step env 14 _ rfl hjid (by rw [h0]; decide)
      (by rw [h0]; decide)]
    rw [show tr.stateQueries + 1 + 1 = tr.stateQueries + 2 from rfl]
    rw [startLoop_pending_step env 13 _ rfl hjid (by rw [h1]; decide)
      (by rw [h1]; decide)]
    rw [show tr.stateQueries + 2 + 1 = tr.stateQueries + 3 from rfl]
    rw [startLoop_pending_step env 12 _ rfl hjid (by rw [h2]; decide)
      (by rw [h2]; decide)]
    rw [show tr.stateQueries + 3 + 1 = tr.stateQueries + 4 from rfl]
    rw [startLoop_running env _ 11 _ (by rw [h3]; decide)]
  rw [start_eq_of_loop_none hjid hloop]
  simp

/-- Witness for C4 on the three-PENDING-then-RUNNING scheduler. -/
theorem start_pending3_running_succeeds_witness :
    (start envW4 spFresh tr0).result = none ∧
    (start envW4 spFresh tr0).trace.stateQueries = tr0.stateQueries + 4 ∧
    (start envW4 spFresh tr0).trace.hostQueries = tr0.hostQueries + 1 ∧
    (start envW4 spFresh tr0).trace.cancels = tr0.cancels :=
  start_pending3_running_succeeds envW4 spFresh tr0 (by decide) (by decide)
    (by decide) (by decide) (by decide)

/-- start always stores the last space-delimited token of the submit
output, on the failure path as well as on the success path. -/
theorem start_spawner_id (env : SchedEnv) (sp : Spawner) (tr : Trace) :
    (start env sp tr).spawner.slurm_job_id =
      some (lastSpaceToken env.submitOut) := by
  simp only [start]
  split <;> rfl

/-- With a present non-empty job id, start performs at least one state
query: it always proceeds to the poll phase. -/
theorem start_queries_lower (env : SchedEnv) (sp : Spawner) (tr : Trace)
    (hjid : lastSpaceToken env.submitOut ≠ "") :
    tr.stateQueries < (start env sp tr).trace.stateQueries := by
  simp only [start]
  rw [check_present env tr rfl hjid]
  have hm := (startLoop_trace_mono env
    { sp with slurm_job_id := some (lastSpaceToken env.submitOut) } 15
    (env.stateResp tr.stateQueries)
    { tr with stateQueries := tr.stateQueries + 1 }).1
  split <;> dsimp only [get_slurm_job_info] <;>
    simp only [Trace.stateQueries] at hm ⊢ <;> omega

/-- The loop result does not depend on which particular non-empty job id
is stored nor on the submit output, only on the state responses. -/
theorem startLoop_congr (env1 env2 : SchedEnv) (sp1 sp2 : Spawner)
    (j1 j2 : String) (hresp : env1.stateResp = env2.stateResp)
    (h1 : sp1.slurm_job_id = some j1) (hj1 : j1 ≠ "")
    (h2 : sp2.slurm_job_id = some j2) (hj2 : j2 ≠ "") :
    ∀ (n : Nat) (js : String) (tr : Trace),
      startLoop env1 sp1 n js tr = startLoop env2 sp2 n js tr := by
  intro n
  induction n with
  | zero => intro js tr; rfl
  | succ m ih =>
      intro js tr
      by_cases hR : strHas js "RUNNING"
      · simp [startLoop, hR]
      · by_cases hP : strHas js "PENDING"
        · rw [startLoop_pending_step env1 m tr h1 hj1 hR hP,
              startLoop_pending_step env2 m tr h2 hj2 hR hP, hresp]
          exact ih _ _
        · simp [startLoop, hR, hP]

/-- Two environments with the same state and host responses and non-empty
parsed tokens give start runs with the same result and the same trace:
the stored token (numeric or not) does not influence the outcome. -/
theorem start_congr (env env2 : SchedEnv) (sp : Spawner) (tr : Trace)
    (hr : env2.stateResp = env.stateResp) (hh : env2.hostResp = env.hostResp)
    (hj1 : lastSpaceToken env.submitOut ≠ "")
    (hj2 : lastSpaceToken env2.submitOut ≠ "") :
    (start env sp tr).result = (start env2 sp tr).result ∧
    (start env sp tr).trace = (start env2 sp tr).trace := by
  simp only [start]
  rw [check_present env tr rfl hj1, check_present env2 tr rfl hj2, hr]
  have hcong := startLoop_congr env env2
    { sp with slurm_job_id := some (lastSpaceToken env.submitOut) }
    { sp with slurm_job_id := some (lastSpaceToken env2.submitOut) }
    (lastSpaceToken env.submitOut) (lastSpaceToken env2.submitOut)
    hr.symm rfl hj1 rfl hj2 15 (env.stateResp tr.stateQueries)
    { tr with stateQueries := tr.stateQueries + 1 }
  rw [← hcong]
  cases hX : (startLoop env
      { sp with slurm_job_id := some (lastSpaceToken env.submitOut) } 15
      (env.stateResp tr.stateQueries)
      { tr with stateQueries := tr.stateQueries + 1 }).1 <;>
    simp [hX, get_slurm_job_info]

/-- Counterexample to claim C9 as stated: on the submit output
Submitted batch job(tab)209 the code stores the token job(tab)209 (the
split is at single spaces only), while the final whitespace-delimited
token of that output is 209; the two differ. -/
theorem start_token_counterexample :
    (start envTab spFresh tr0).spawner.slurm_job_id = some "job\t209" ∧
    lastWhitespaceToken envTab.submitOut = "209" ∧
    ("job\t209" : String) ≠ "209" := by
  refine ⟨?_, by decide, by decide⟩
  decide

/-- Claim C9 as amended.  start parses the job identifier as the final
space-delimited token of the submit output (split at single spaces, not
at general whitespace) and stores it; when that token is not numeric the
code only logs and continues: it still stores the token, still proceeds
to the state-query poll phase, and the result and trace are the same as
for any other (for example numeric) non-empty token under the same
scheduler responses, rather than start failing because of the token. -/
theorem start_token_parse_behavior (env env2 : SchedEnv) (sp : Spawner)
    (tr : Trace) (hnum : pyIntOk (lastSpaceToken env.submitOut) = false) :
    (start env sp tr).spawner.slurm_job_id =
      some (lastSpaceToken env.submitOut) ∧
    (lastSpaceToken env.submitOut ≠ "" →
      tr.stateQueries < (start env sp tr).trace.stateQueries) ∧
    (env2.stateResp = env.stateResp → env2.hostResp = env.hostResp →
      lastSpaceToken env.submitOut ≠ "" →
      lastSpaceToken env2.submitOut ≠ "" →
      (start env sp tr).result = (start env2 sp tr).result ∧
      (start env sp tr).trace = (start env2 sp tr).trace) :=
  ⟨start_spawner_id env sp tr,
   fun hjid => start_queries_lower env sp tr hjid,
   fun hr hh hj1 hj2 => start_congr env env2 sp tr hr hh hj1 hj2⟩

/-- Witness for C9 (amended): the tab-containing non-numeric token is
stored, polling still happens, and the run is observationally equal to
the same scheduler with a numeric token. -/
theorem start_token_parse_behavior_witness :
    (start envTab spFresh tr0).spawner.slurm_job_id =
      some (lastSpaceToken envTab.submitOut) ∧
    (lastSpaceToken envTab.submitOut ≠ "" →
      tr0.stateQueries < (start envTab spFresh tr0).trace.stateQueries) ∧
    ({ envTab with submitOut := "Submitted batch job 209" }.stateResp =
        envTab.stateResp →
      { envTab with submitOut := "Submitted batch job 209" }.hostResp =
        envTab.hostResp →
      lastSpaceToken envTab.submitOut ≠ "" →
      lastSpaceToken
          { envTab with submitOut := "Submitted batch job 209" }.submitOut ≠
        "" →
      (start envTab spFresh tr0).result =
        (start { envTab with submitOut := "Submitted batch job 209" }
          spFresh tr0).result ∧
      (start envTab spFresh tr0).trace =
        (start { envTab with submitOut := "Submitted batch job 209" }
          spFresh tr0).trace) :=
  start_token_parse_behavior envTab
    { envTab with submitOut := "Submitted batch job 209" } spFresh tr0
    (by decide)

/-- poll performs at most one state query and touches no other counter. -/
theorem poll_trace (env : SchedEnv) (sp : Spawner) (tr : Trace) :
    tr.stateQueries ≤ (poll env sp tr).2.2.stateQueries ∧
    (poll env sp tr).2.2.stateQueries ≤ tr.stateQueries + 1 ∧
    (poll env sp tr).2.2.cancels = tr.cancels ∧
    (poll env sp tr).2.2.hostQueries = tr.hostQueries := by
  cases h : sp.slurm_job_id with
  | none =>
      rw [poll_absent env sp tr (Or.inl h)]
      simp
  | some id =>
      by_cases hid : id = ""
      · subst hid
        rw [poll_absent env sp tr (Or.inr h)]
        simp
      · have hc := check_present env tr h hid
        simp only [poll, h, hc]
        split <;> simp

/-- poll on a present non-empty job id whose reported state contains
neither RUNNING nor PENDING: one query, state cleared, result 1. -/
theorem poll_terminal (env : SchedEnv) (sp : Spawner) (tr : Trace)
    (j : String) (hid : sp.slurm_job_id = some j) (hj : j ≠ "")
    (hR : ¬ strHas (env.stateResp tr.stateQueries) "RUNNING")
    (hP : ¬ strHas (env.stateResp tr.stateQueries) "PENDING") :
    poll env sp tr =
      (some 1, clear_state sp,
       { tr with stateQueries := tr.stateQueries + 1 }) := by
  simp [poll, hid, check_present env tr hid hj, hR, hP]

/-- Claim C7.  stop is bounded and idempotent: its trace grows by at most
two state queries and one cancel and never touches host resolution (and,
being a total function, it never raises); when the initial poll reports
not running it returns that poll outcome immediately with no cancel; and
when the job is already terminal, the first stop call performs exactly one
state query and no cancel, while a second stop call straight after it
performs no scheduler invocation at all and leaves everything unchanged. -/
theorem stop_idempotent_bounded (env : SchedEnv) (sp : Spawner) (tr : Trace)
    (now1 now2 : Bool) :
    ((stop env sp tr now1).trace.stateQueries ≤ tr.stateQueries + 2 ∧
     (stop env sp tr now1).trace.cancels ≤ tr.cancels + 1 ∧
     (stop env sp tr now1).trace.hostQueries = tr.hostQueries) ∧
    (∀ st sp1 tr1, poll env sp tr = (some st, sp1, tr1) →
      stop env sp tr now1 = ⟨sp1, tr1, false⟩ ∧ tr1.cancels = tr.cancels) ∧
    (∀ j, sp.slurm_job_id = some j → j ≠ "" →
      ¬ strHas (env.stateResp tr.stateQueries) "RUNNING" →
      ¬ strHas (env.stateResp tr.stateQueries) "PENDING" →
      stop env sp tr now1 =
        ⟨clear_state sp, { tr with stateQueries := tr.stateQueries + 1 },
         false⟩ ∧
      stop env (clear_state sp)
          { tr with stateQueries := tr.stateQueries + 1 } now2 =
        ⟨clear_state sp, { tr with stateQueries := tr.stateQueries + 1 },
         false⟩) := by
  refine ⟨?_, ?_, ?_⟩
  · have hp1 := poll_trace env sp tr
    unfold stop
    rcases hX : poll env sp tr with ⟨st, sp1, tr1⟩
    rw [hX] at hp1
    cases st
    · have hp2 := poll_trace env sp1 { tr1 with cancels := tr1.cancels + 1 }
      simp only
      split
      · simp_all
        omega
      · rcases hY : poll env sp1 { tr1 with cancels := tr1.cancels + 1 } with
          ⟨st2, sp2, tr2⟩
        rw [hY] at hp2
        cases st2 <;> simp_all <;> omega
    · simp_all
      omega
  · intro st sp1 tr1 hX
    have hp1 := poll_trace env sp tr
    rw [hX] at hp1
    exact ⟨by simp [stop, hX], hp1.2.2.1⟩
  · intro j hid hj hR hP
    have hpoll := poll_terminal env sp tr j hid hj hR hP
    have hpoll2 := poll_absent env (clear_state sp)
      { tr with stateQueries := tr.stateQueries + 1 } (Or.inr rfl)
    simp only [clear_state] at hpoll2
    constructor
    · simp [stop, hpoll]
    · simp [stop, hpoll2, clear_state]

/-- Witness for C7 on a scheduler reporting FAILED for job 42: the first
stop does one confirming query and no cancel, the second does nothing. -/
theorem stop_idempotent_bounded_witness :
    ((stop envFail spJob tr0 true).trace.stateQueries ≤
        tr0.stateQueries + 2 ∧
     (stop envFail spJob tr0 true).trace.cancels ≤ tr0.cancels + 1 ∧
     (stop envFail spJob tr0 true).trace.hostQueries = tr0.hostQueries) ∧
    (∀ st sp1 tr1, poll envFail spJob tr0 = (some st, sp1, tr1) →
      stop envFail spJob tr0 true = ⟨sp1, tr1, false⟩ ∧
      tr1.cancels = tr0.cancels) ∧
    (∀ j, spJob.slurm_job_id = some j → j ≠ "" →
      ¬ strHas (envFail.stateResp tr0.stateQueries) "RUNNING" →
      ¬ strHas (envFail.stateResp tr0.stateQueries) "PENDING" →
      stop envFail spJob tr0 true =
        ⟨clear_state spJob,
         { tr0 with stateQueries := tr0.stateQueries + 1 }, false⟩ ∧
      stop envFail (clear_state spJob)
          { tr0 with stateQueries := tr0.stateQueries + 1 } false =
        ⟨clear_state spJob,
         { tr0 with stateQueries := tr0.stateQueries + 1 }, false⟩) :=
  stop_idempotent_bounded envFail spJob tr0 true false

/-- Claim C8.  For every user and every command the template accepts, the
rendered submission script contains the fixed default directives:
partition all, memory 200, wall time 2:00:00, the per-user output log
path, the fixed job name, the per-user working directory, and the
login-shell environment inheritance flag. -/
theorem sbatch_script_defaults (user cmd s : String)
    (h : run_jupyterhub_singleuser_script cmd user = some s) :
    strHas s "#SBATCH --partition=all" ∧
    strHas s "#SBATCH --mem=200" ∧
    strHas s "#SBATCH --time=2:00:00" ∧
    strHas s
      ("#SBATCH -o /home/" ++ user ++ "/jupyterhub_slurmspawner_%j.log") ∧
    strHas s "#SBATCH --job-name=spawner-jupyterhub" ∧
    strHas s ("#SBATCH --workdir=/home/" ++ user) ∧
    strHas s "#SBATCH --get-user-env=L" := by
  unfold run_jupyterhub_singleuser_script at h
  split at h
  case h_2 => exact absurd h (by simp)
  case h_1 e c rest =>
    rw [Option.some.injEq] at h
    subst h
    unfold sbatchTemplate
    refine ⟨?_, ?_, ?_, ?_, ?_, ?_, ?_⟩
    · iterate 25 apply strHas_appendL
      exact strHas_trans (by decide)
        (strHas_glue2 "#!/bin/bash\n" "#SBATCH --partition=" "all")
    · iterate 11 apply strHas_appendL
      exact strHas_trans (by decide) (strHas_glue2 _ "#SBATCH --mem=" "200")
    · iterate 21 apply strHas_appendL
      exact strHas_trans (by decide)
        (strHas_glue3 _ "#SBATCH --time=" "2" ":00:00\n")
    · iterate 18 apply strHas_appendL
      exact strHas_glue3 _ "#SBATCH -o /home/" user
        "/jupyterhub_slurmspawner_%j.log"
    · iterate 16 apply strHas_appendL
      apply strHas_appendR
      decide
    · iterate 14 apply strHas_appendL
      exact strHas_glue2 _ "#SBATCH --workdir=/home/" user
    · iterate 6 apply strHas_appendL
      apply strHas_appendR
      decide

/-- Witness for C8 on user alice and the command
export X=1;run.sh. -/
theorem sbatch_script_defaults_witness :
    strHas (sbatchTemplate "all" "2" "alice" "export X=1" "run.sh" "200")
      "#SBATCH --partition=all" ∧
    strHas (sbatchTemplate "all" "2" "alice" "export X=1" "run.sh" "200")
      "#SBATCH --mem=200" ∧
    strHas (sbatchTemplate "all" "2" "alice" "export X=1" "run.sh" "200")
      "#SBATCH --time=2:00:00" ∧
    strHas (sbatchTemplate "all" "2" "alice" "export X=1" "run.sh" "200")
      ("#SBATCH -o /home/" ++ "alice" ++ "/jupyterhub_slurmspawner_%j.log") ∧
    strHas (sbatchTemplate "all" "2" "alice" "export X=1" "run.sh" "200")
      "#SBATCH --job-name=spawner-jupyterhub" ∧
    strHas (sbatchTemplate "all" "2" "alice" "export X=1" "run.sh" "200")
      ("#SBATCH --workdir=/home/" ++ "alice") ∧
    strHas (sbatchTemplate "all" "2" "alice" "export X=1" "run.sh" "200")
      "#SBATCH --get-user-env=L" :=
  sbatch_script_defaults "alice" "export X=1;run.sh"
    (sbatchTemplate "all" "2" "alice" "export X=1" "run.sh" "200")
    (by set_option maxRecDepth 4000 in decide)

end SlurmSpawner
